import Mathlib

/-!
Verification of the polling, audio-format and result-resolution core of the
langchain-camb adapter layer.

The embedding models:
* `CambBaseTool._poll_task_status` and `_poll_task_status_sync`
  (`langchain_camb/tools/base.py`) as fuel-indexed recursive functions over an
  abstract status fetcher, producing both an outcome and an event trace
  (fetches and sleeps) so that "no further fetch / no further sleep" claims are
  expressible;
* `CambTranslatedTTSTool._detect_audio_format`, `_format_output`,
  `_add_wav_header` and the fallback branch of `_get_audio_from_status`
  (`langchain_camb/tools/translated_tts.py`) over byte lists;
* the ApiError handling of `CambTranslationTool._run` / `_arun`
  (`langchain_camb/tools/translation.py`).

Bytes are modelled as `List Nat` (each entry a byte value), Python strings as
`String`, float intervals as `ℚ`, absent attributes/keys as `none`, and raised
exceptions as explicit outcome constructors.
-/

/-- A task status payload as inspected by the pollers.  `status = none` models
a payload object without a `status` attribute (the `hasattr` check fails);
`error = none` models a payload without an `error` attribute (so
`getattr(status, "error", "Unknown error")` yields the default). -/
structure StatusPayload where
  status : Option String
  error : Option String
deriving DecidableEq, Repr

/-- Observable events of a polling run: a status fetch for attempt `i`, or a
sleep of `d` seconds (`asyncio.sleep` / `time.sleep`). -/
inductive PollEvent where
  | fetched (i : Nat)
  | slept (d : ℚ)
deriving DecidableEq, Repr

/-- Result of a polling run: the returned status payload, a raised
`RuntimeError` with its message, or a raised `TimeoutError` carrying the task
id and the reported budget `max_poll_attempts * poll_interval` seconds. -/
inductive PollOutcome where
  | completed (st : StatusPayload)
  | taskFailed (msg : String)
  | timedOut (taskId : String) (budget : ℚ)
deriving DecidableEq, Repr

/-- `status_value in ("completed", "SUCCESS")` (base.py line 109/150). -/
def isSuccessStatus (s : String) : Bool :=
  s == "completed" || s == "SUCCESS"

/-- `status_value in ("failed", "FAILED", "error")` (base.py line 111/152). -/
def isFailureStatus (s : String) : Bool :=
  s == "failed" || s == "FAILED" || s == "error"

/-- A payload is terminal when it has a `status` attribute whose value is in
the recognized success or failure set. -/
def isTerminalStatus (st : StatusPayload) : Bool :=
  match st.status with
  | some v => isSuccessStatus v || isFailureStatus v
  | none => false

/-- The loop body of `_poll_task_status` (base.py lines 104-120).  `get i` is
the payload returned by the i-th call of `get_status_fn`; the first argument
of the recursion is the index of the current attempt, the second the number of
attempts remaining (`range(self.max_poll_attempts)`).  On exhaustion the
`TimeoutError` reports `self.max_poll_attempts * self.poll_interval`. -/
def pollFromAsync (get : Nat → StatusPayload) (taskId : String) (maxAttempts : Nat)
    (interval : ℚ) : Nat → Nat → PollOutcome × List PollEvent
  | _, 0 => (PollOutcome.timedOut taskId ((maxAttempts : ℚ) * interval), [])
  | idx, fuel + 1 =>
    match (get idx).status with
    | some v =>
      if isSuccessStatus v then
        (PollOutcome.completed (get idx), [PollEvent.fetched idx])
      else if isFailureStatus v then
        (PollOutcome.taskFailed ("Task failed: " ++ ((get idx).error.getD "Unknown error")),
          [PollEvent.fetched idx])
      else
        let r := pollFromAsync get taskId maxAttempts interval (idx + 1) fuel
        (r.1, PollEvent.fetched idx :: PollEvent.slept interval :: r.2)
    | none =>
      let r := pollFromAsync get taskId maxAttempts interval (idx + 1) fuel
      (r.1, PollEvent.fetched idx :: PollEvent.slept interval :: r.2)

/-- `CambBaseTool._poll_task_status` (base.py lines 83-120): the loop started
at attempt 0 with `max_poll_attempts` attempts available. -/
def pollTaskStatus (get : Nat → StatusPayload) (taskId : String) (maxAttempts : Nat)
    (interval : ℚ) : PollOutcome × List PollEvent :=
  pollFromAsync get taskId maxAttempts interval 0 maxAttempts

/-- The loop body of `_poll_task_status_sync` (base.py lines 145-161),
transcribed separately from its own source lines; it differs from the async
variant only in using `time.sleep` in place of `await asyncio.sleep`, which
both appear in the trace as a `slept` event. -/
def pollFromSync (get : Nat → StatusPayload) (taskId : String) (maxAttempts : Nat)
    (interval : ℚ) : Nat → Nat → PollOutcome × List PollEvent
  | _, 0 => (PollOutcome.timedOut taskId ((maxAttempts : ℚ) * interval), [])
  | idx, fuel + 1 =>
    match (get idx).status with
    | some v =>
      if isSuccessStatus v then
        (PollOutcome.completed (get idx), [PollEvent.fetched idx])
      else if isFailureStatus v then
        (PollOutcome.taskFailed ("Task failed: " ++ ((get idx).error.getD "Unknown error")),
          [PollEvent.fetched idx])
      else
        let r := pollFromSync get taskId maxAttempts interval (idx + 1) fuel
        (r.1, PollEvent.fetched idx :: PollEvent.slept interval :: r.2)
    | none =>
      let r := pollFromSync get taskId maxAttempts interval (idx + 1) fuel
      (r.1, PollEvent.fetched idx :: PollEvent.slept interval :: r.2)

/-- `CambBaseTool._poll_task_status_sync` (base.py lines 122-161). -/
def pollTaskStatusSync (get : Nat → StatusPayload) (taskId : String) (maxAttempts : Nat)
    (interval : ℚ) : PollOutcome × List PollEvent :=
  pollFromSync get taskId maxAttempts interval 0 maxAttempts

/-- A payload with a `status` attribute in the recognized success set. -/
def isSuccessPayload (st : StatusPayload) : Bool :=
  match st.status with
  | some v => isSuccessStatus v
  | none => false

/-- A payload with a `status` attribute in the recognized failure set. -/
def isFailurePayload (st : StatusPayload) : Bool :=
  match st.status with
  | some v => isFailureStatus v
  | none => false

/-- A concrete fetcher: no terminal status on attempt 0, then "completed". -/
def sampleFetchSuccess : Nat → StatusPayload :=
  fun i => if i = 0 then ⟨some "PENDING", none⟩ else ⟨some "completed", none⟩

/-- A concrete fetcher: non-terminal once, then "FAILED" with an error field. -/
def sampleFetchFailure : Nat → StatusPayload :=
  fun i => if i = 0 then ⟨some "PENDING", none⟩ else ⟨some "FAILED", some "boom"⟩

/-- A concrete fetcher that never reaches a terminal state. -/
def sampleFetchPending : Nat → StatusPayload :=
  fun _ => ⟨some "PENDING", none⟩

/-- A concrete fetcher whose payloads lack a `status` attribute entirely. -/
def sampleFetchNoStatus : Nat → StatusPayload :=
  fun _ => ⟨none, some "ignored"⟩

/-- The event trace of `k` consecutive non-terminal inspections starting at
attempt `idx`: each contributes one fetch followed by one sleep. -/
def nonTerminalTrace (interval : ℚ) (idx : Nat) : Nat → List PollEvent
  | 0 => []
  | k + 1 => PollEvent.fetched idx :: PollEvent.slept interval ::
      nonTerminalTrace interval (idx + 1) k

/-- Number of fetch events in a trace. -/
def fetchCount : List PollEvent → Nat
  | [] => 0
  | PollEvent.fetched _ :: rest => fetchCount rest + 1
  | PollEvent.slept _ :: rest => fetchCount rest

/-- Total seconds slept in a trace. -/
def sleptTotal : List PollEvent → ℚ
  | [] => 0
  | PollEvent.fetched _ :: rest => sleptTotal rest
  | PollEvent.slept d :: rest => d + sleptTotal rest

/-- `audio_data.startswith(magic)`: the first `magic.length` bytes equal
`magic`. -/
def bytesStartWith (data magic : List Nat) : Bool :=
  List.take magic.length data == magic

/-- Auxiliary for substring search: the haystack starts with the needle. -/
def charsStartWith : List Char → List Char → Bool
  | _, [] => true
  | [], _ :: _ => false
  | a :: as, b :: bs => a == b && charsStartWith as bs

/-- Python `needle in hay` on character lists: some suffix of the haystack
starts with the needle. -/
def charsContainsSeq : List Char → List Char → Bool
  | [], needle => needle.isEmpty
  | a :: rest, needle => charsStartWith (a :: rest) needle || charsContainsSeq rest needle

/-- Python substring membership `needle in hay` on strings. -/
def strContainsSub (hay needle : String) : Bool :=
  charsContainsSeq hay.data needle.data

/-- ASCII lower-casing of one character, as `str.lower()` acts on the ASCII
range of a content-type header value. -/
def asciiLowerChar (c : Char) : Char :=
  if 65 <= c.toNat && c.toNat <= 90 then Char.ofNat (c.toNat + 32) else c

/-- `content_type.lower()` for ASCII header values. -/
def strToLower (s : String) : String :=
  String.mk (s.data.map asciiLowerChar)

/-- The content-type fallback of `_detect_audio_format` (translated_tts.py
lines 274-286): lower-case the header value and test substrings in source
order, defaulting to raw "pcm". -/
def contentTypeDetect (contentType : String) : String :=
  let ct := strToLower contentType
  if strContainsSub ct "wav" || strContainsSub ct "wave" then "wav"
  else if strContainsSub ct "mpeg" || strContainsSub ct "mp3" then "mp3"
  else if strContainsSub ct "flac" then "flac"
  else if strContainsSub ct "ogg" then "ogg"
  else "pcm"

/-- `CambTranslatedTTSTool._detect_audio_format` (translated_tts.py lines
258-286).  Magic bytes are checked first: b"RIFF" = [82,73,70,70],
b"\xff\xfb" = [255,251], b"\xff\xfa" = [255,250], b"ID3" = [73,68,51],
b"fLaC" = [102,76,97,67], b"OggS" = [79,103,103,83]; only if none matches is
the content-type header consulted. -/
def detectAudioFormat (audioData : List Nat) (contentType : String) : String :=
  if bytesStartWith audioData [82, 73, 70, 70] then "wav"
  else if bytesStartWith audioData [255, 251] || bytesStartWith audioData [255, 250]
      || bytesStartWith audioData [73, 68, 51] then "mp3"
  else if bytesStartWith audioData [102, 76, 97, 67] then "flac"
  else if bytesStartWith audioData [79, 103, 103, 83] then "ogg"
  else contentTypeDetect contentType

/-- Some leading magic sequence of `_detect_audio_format` matches. -/
def hasAudioMagic (data : List Nat) : Bool :=
  bytesStartWith data [82, 73, 70, 70] ||
  bytesStartWith data [255, 251] || bytesStartWith data [255, 250] ||
  bytesStartWith data [73, 68, 51] ||
  bytesStartWith data [102, 76, 97, 67] ||
  bytesStartWith data [79, 103, 103, 83]

/-- Some content-type substring hint of `_detect_audio_format` matches. -/
def hasContentTypeHint (contentType : String) : Bool :=
  strContainsSub (strToLower contentType) "wav" ||
  strContainsSub (strToLower contentType) "wave" ||
  strContainsSub (strToLower contentType) "mpeg" ||
  strContainsSub (strToLower contentType) "mp3" ||
  strContainsSub (strToLower contentType) "flac" ||
  strContainsSub (strToLower contentType) "ogg"

/-- The low 32 bits of `n` in little-endian byte order, as produced by
`struct.pack("<I", n)`. -/
def u32LEBytes (n : Nat) : List Nat :=
  [n % 256, n / 2 ^ 8 % 256, n / 2 ^ 16 % 256, n / 2 ^ 24 % 256]

/-- The low 16 bits of `n` in little-endian byte order, as produced by
`struct.pack("<H", n)`. -/
def u16LEBytes (n : Nat) : List Nat :=
  [n % 256, n / 2 ^ 8 % 256]

/-- `struct.pack` field "I": fails (struct.error) when the value does not fit
an unsigned 32-bit integer. -/
def packU32 (n : Nat) : Option (List Nat) :=
  if n < 2 ^ 32 then some (u32LEBytes n) else none

/-- `struct.pack` field "H": fails when the value does not fit 16 bits. -/
def packU16 (n : Nat) : Option (List Nat) :=
  if n < 2 ^ 16 then some (u16LEBytes n) else none

/-- `CambTranslatedTTSTool._add_wav_header` (translated_tts.py lines 312-340):
`struct.pack("<4sI4s4sIHHIIHH4sI", b"RIFF", 36+N, b"WAVE", b"fmt ", 16, 1,
num_channels, sample_rate, byte_rate, block_align, bits_per_sample, b"data",
N) + pcm_data` with sample_rate 24000, one channel and 16 bits per sample.
`none` models the struct.error raised when a 32-bit field overflows. -/
def addWavHeader (pcmData : List Nat) : Option (List Nat) := do
  let sampleRate := 24000
  let numChannels := 1
  let bitsPerSample := 16
  let byteRate := sampleRate * numChannels * bitsPerSample / 8
  let blockAlign := numChannels * bitsPerSample / 8
  let dataSize := pcmData.length
  let chunkSize ← packU32 (36 + dataSize)
  let fmtSize ← packU32 16
  let audioFmt ← packU16 1
  let channels ← packU16 numChannels
  let rate ← packU32 sampleRate
  let bytesPerSec ← packU32 byteRate
  let align ← packU16 blockAlign
  let bits ← packU16 bitsPerSample
  let dataLen ← packU32 dataSize
  return [82, 73, 70, 70] ++ chunkSize ++ [87, 65, 86, 69] ++ [102, 109, 116, 32] ++
    fmtSize ++ audioFmt ++ channels ++ rate ++ bytesPerSec ++ align ++ bits ++
    [100, 97, 116, 97] ++ dataLen ++ pcmData

/-- The 44-byte WAV header `_add_wav_header` produces for a payload of `n`
bytes (for `n` within the 32-bit range). -/
def wavHeader (n : Nat) : List Nat :=
  [82, 73, 70, 70] ++ u32LEBytes (36 + n) ++ [87, 65, 86, 69] ++ [102, 109, 116, 32] ++
    u32LEBytes 16 ++ u16LEBytes 1 ++ u16LEBytes 1 ++ u32LEBytes 24000 ++
    u32LEBytes 48000 ++ u16LEBytes 2 ++ u16LEBytes 16 ++ [100, 97, 116, 97] ++
    u32LEBytes n

/-- The caller-visible output of `_format_output`: either a base64 rendering
of `payload`, or a fresh temporary file with extension `ext` holding
`payload`. -/
inductive OutputArtifact where
  | b64 (payload : List Nat)
  | filePath (ext : String) (payload : List Nat)
deriving DecidableEq, Repr

/-- Lookup in a Python dict literal modelled as an association list
(`d.get(k)` semantics: `none` when the key is absent). -/
def dictGet : List (String × String) → String → Option String
  | [], _ => none
  | (k, v) :: rest, key => if k == key then some v else dictGet rest key

/-- The `ext_map` dict of `_format_output` (translated_tts.py line 302). -/
def extMap : List (String × String) :=
  [("wav", ".wav"), ("mp3", ".mp3"), ("flac", ".flac"), ("ogg", ".ogg"), ("pcm", ".wav")]

/-- `CambTranslatedTTSTool._format_output` (translated_tts.py lines 288-310).
The WAV header is synthesized only when the detected format is "pcm" AND the
byte sequence is truthy (non-empty); `none` propagates a struct.error from
`_add_wav_header`. -/
def formatOutput (audioData : List Nat) (outputFormat : String) (audioFormat : String) :
    Option OutputArtifact := do
  let (audioData, audioFormat) ←
    if audioFormat == "pcm" && !audioData.isEmpty then do
      let wrapped ← addWavHeader audioData
      pure (wrapped, "wav")
    else
      pure (audioData, audioFormat)
  let extension := (dictGet extMap audioFormat).getD ".wav"
  if outputFormat == "base64" then
    return OutputArtifact.b64 audioData
  else
    return OutputArtifact.filePath extension audioData

/-- Python `s.startswith(pre)` on strings, by character comparison. -/
def pyStartsWith (s pre : String) : Bool :=
  charsStartWith s.data pre.data

/-- The `status.message` attribute as the fallback path of
`_get_audio_from_status` inspects it: a dict (modelled as an association list
with string values), a string, or some other (truthy) object. -/
inductive StatusMessage where
  | dict (entries : List (String × String))
  | str (s : String)
  | other
deriving DecidableEq, Repr

/-- Python truthiness of the message object (`if message:`): an empty dict or
empty string is falsy, a generic object is truthy. -/
def messageTruthy : StatusMessage → Bool
  | StatusMessage.dict entries => !entries.isEmpty
  | StatusMessage.str s => !(s == "")
  | StatusMessage.other => true

/-- The Python expression `a or b or c` over dict lookups followed by the
`if url:` truthiness test: the first candidate present with a non-empty
value. -/
def findTruthyUrl : List (Option String) → Option String
  | [] => none
  | some s :: rest => if s == "" then findTruthyUrl rest else some s
  | none :: rest => findTruthyUrl rest

/-- URL selection of the fallback path of `_get_audio_from_status`
(translated_tts.py lines 186-205): guarded by the truthiness of `message`; a
dict is probed via `message.get("output_url") or message.get("audio_url") or
message.get("url")`; a string is used directly when it starts with "http";
any other object yields no URL (`url = None`). -/
def resolveFallbackUrl (message : Option StatusMessage) : Option String :=
  match message with
  | none => none
  | some m =>
    if messageTruthy m then
      match m with
      | StatusMessage.dict entries =>
          findTruthyUrl [dictGet entries "output_url", dictGet entries "audio_url",
            dictGet entries "url"]
      | StatusMessage.str s => if pyStartsWith s "http" then some s else none
      | StatusMessage.other => none
    else none

/-- The fallback branch of `_get_audio_from_status`: fetch the resolved URL
(`fetchUrl` returns the response body bytes and content-type header) and
classify its format, or return the empty byte sequence as raw "pcm" when no
URL was found. -/
def getAudioFromStatusFallback (message : Option StatusMessage)
    (fetchUrl : String → List Nat × String) : List Nat × String :=
  match resolveFallbackUrl message with
  | some url => ((fetchUrl url).1, detectAudioFormat (fetchUrl url).1 (fetchUrl url).2)
  | none => ([], "pcm")

/-- `camb.core.api_error.ApiError` as the translation tool inspects it. -/
structure ApiError where
  statusCode : Int
  body : Option String
deriving DecidableEq, Repr

/-- One chunk of a streaming translation response as `_extract_text` treats
it: a chunk with a `text` attribute, a plain string chunk, or anything else
(contributing nothing). -/
inductive StreamChunk where
  | withText (t : String)
  | plainStr (s : String)
  | skipped
deriving DecidableEq, Repr

/-- The value returned by `translation_stream` as `_extract_text` inspects
it: an iterable of chunks, an object with a `text` attribute, a plain string,
or any other object (stringified). -/
inductive StreamValue where
  | stream (chunks : List StreamChunk)
  | withText (t : String)
  | plainStr (s : String)
  | otherRepr (s : String)
deriving DecidableEq, Repr

/-- The chunk texts collected by `_extract_text` (translation.py lines
137-142). -/
def chunkTexts : List StreamChunk → List String
  | [] => []
  | StreamChunk.withText t :: rest => t :: chunkTexts rest
  | StreamChunk.plainStr s :: rest => s :: chunkTexts rest
  | StreamChunk.skipped :: rest => chunkTexts rest

/-- `CambTranslationTool._extract_text` (translation.py lines 133-150). -/
def extractText : StreamValue → String
  | StreamValue.stream chunks => String.join (chunkTexts chunks)
  | StreamValue.withText t => t
  | StreamValue.plainStr s => s
  | StreamValue.otherRepr s => s

/-- Python truthiness of `e.body` (the `and e.body` test). -/
def bodyTruthy : Option String → Bool
  | some s => !(s == "")
  | none => false

/-- `str(e.body)` for a string body (`None` stringifies to "None", though the
truthiness guard keeps that branch unreachable). -/
def bodyStr : Option String → String
  | some s => s
  | none => "None"

/-- The try/except of `CambTranslationTool._run` (translation.py lines
89-97): the `translation_stream` call either yields a value (extracted) or
raises an ApiError; an ApiError with `status_code == 200 and e.body` is
converted to a successful result `str(e.body)`, any other ApiError is
re-raised. -/
def translationRunOutcome (call : Except ApiError StreamValue) : Except ApiError String :=
  match call with
  | Except.ok r => Except.ok (extractText r)
  | Except.error e =>
      if e.statusCode == 200 && bodyTruthy e.body then Except.ok (bodyStr e.body)
      else Except.error e

/-- The try/except of `CambTranslationTool._arun` (translation.py lines
123-131), transcribed separately: the handling is identical to `_run`. -/
def translationArunOutcome (call : Except ApiError StreamValue) : Except ApiError String :=
  match call with
  | Except.ok r => Except.ok (extractText r)
  | Except.error e =>
      if e.statusCode == 200 && bodyTruthy e.body then Except.ok (bodyStr e.body)
      else Except.error e

theorem nonTerminalTrace_fetchCount (interval : ℚ) :
    ∀ k idx, fetchCount (nonTerminalTrace interval idx k) = k := by
  intro k
  induction k with
  | zero => intro idx; simp [nonTerminalTrace, fetchCount]
  | succ k ih => intro idx; simp [nonTerminalTrace, fetchCount, ih]

theorem nonTerminalTrace_sleptTotal (interval : ℚ) :
    ∀ k idx, sleptTotal (nonTerminalTrace interval idx k) = (k : ℚ) * interval := by
  intro k
  induction k with
  | zero => intro idx; simp [nonTerminalTrace, sleptTotal]
  | succ k ih =>
    intro idx
    simp [nonTerminalTrace, sleptTotal, ih]
    ring

theorem fetchCount_append (l₁ l₂ : List PollEvent) :
    fetchCount (l₁ ++ l₂) = fetchCount l₁ + fetchCount l₂ := by
  induction l₁ with
  | nil => simp [fetchCount]
  | cons e rest ih =>
    cases e with
    | fetched i => simp [fetchCount, ih]; omega
    | slept d => simp [fetchCount, ih]

theorem sleptTotal_append (l₁ l₂ : List PollEvent) :
    sleptTotal (l₁ ++ l₂) = sleptTotal l₁ + sleptTotal l₂ := by
  induction l₁ with
  | nil => simp [sleptTotal]
  | cons e rest ih =>
    cases e with
    | fetched i => simp [sleptTotal, ih]
    | slept d => simp [sleptTotal, ih]; ring

theorem pollFromAsync_nonterminal_step (get : Nat → StatusPayload) (taskId : String)
    (maxA : Nat) (interval : ℚ) (idx fuel : Nat)
    (h : isTerminalStatus (get idx) = false) :
    pollFromAsync get taskId maxA interval idx (fuel + 1) =
      ((pollFromAsync get taskId maxA interval (idx + 1) fuel).1,
        PollEvent.fetched idx :: PollEvent.slept interval ::
          (pollFromAsync get taskId maxA interval (idx + 1) fuel).2) := by
  cases hst : (get idx).status with
  | none => simp [pollFromAsync, hst]
  | some v =>
    have hv : isSuccessStatus v = false ∧ isFailureStatus v = false := by
      have := h
      simp [isTerminalStatus, hst] at this
      exact this
    simp [pollFromAsync, hst, hv.1, hv.2]

theorem pollFromSync_nonterminal_step (get : Nat → StatusPayload) (taskId : String)
    (maxA : Nat) (interval : ℚ) (idx fuel : Nat)
    (h : isTerminalStatus (get idx) = false) :
    pollFromSync get taskId maxA interval idx (fuel + 1) =
      ((pollFromSync get taskId maxA interval (idx + 1) fuel).1,
        PollEvent.fetched idx :: PollEvent.slept interval ::
          (pollFromSync get taskId maxA interval (idx + 1) fuel).2) := by
  cases hst : (get idx).status with
  | none => simp [pollFromSync, hst]
  | some v =>
    have hv : isSuccessStatus v = false ∧ isFailureStatus v = false := by
      have := h
      simp [isTerminalStatus, hst] at this
      exact this
    simp [pollFromSync, hst, hv.1, hv.2]

theorem pollFromAsync_skip (get : Nat → StatusPayload) (taskId : String)
    (maxA : Nat) (interval : ℚ) :
    ∀ k idx fuel, (∀ j, j < k → isTerminalStatus (get (idx + j)) = false) →
    pollFromAsync get taskId maxA interval idx (k + fuel) =
      ((pollFromAsync get taskId maxA interval (idx + k) fuel).1,
        nonTerminalTrace interval idx k ++
          (pollFromAsync get taskId maxA interval (idx + k) fuel).2) := by
  intro k
  induction k with
  | zero =>
    intro idx fuel _
    simp [nonTerminalTrace]
  | succ k ih =>
    intro idx fuel h
    have h0 : isTerminalStatus (get idx) = false := by
      have := h 0 (Nat.succ_pos k)
      simpa using this
    have hrest : ∀ j, j < k → isTerminalStatus (get (idx + 1 + j)) = false := by
      intro j hj
      have := h (j + 1) (Nat.succ_lt_succ hj)
      have harith : idx + (j + 1) = idx + 1 + j := by omega
      rw [harith] at this
      exact this
    have hk : k + 1 + fuel = (k + fuel) + 1 := by omega
    rw [hk, pollFromAsync_nonterminal_step get taskId maxA interval idx (k + fuel) h0,
      ih (idx + 1) fuel hrest]
    have harith2 : idx + 1 + k = idx + (k + 1) := by omega
    simp [nonTerminalTrace, harith2]

theorem pollFromSync_skip (get : Nat → StatusPayload) (taskId : String)
    (maxA : Nat) (interval : ℚ) :
    ∀ k idx fuel, (∀ j, j < k → isTerminalStatus (get (idx + j)) = false) →
    pollFromSync get taskId maxA interval idx (k + fuel) =
      ((pollFromSync get taskId maxA interval (idx + k) fuel).1,
        nonTerminalTrace interval idx k ++
          (pollFromSync get taskId maxA interval (idx + k) fuel).2) := by
  intro k
  induction k with
  | zero =>
    intro idx fuel _
    simp [nonTerminalTrace]
  | succ k ih =>
    intro idx fuel h
    have h0 : isTerminalStatus (get idx) = false := by
      have := h 0 (Nat.succ_pos k)
      simpa using this
    have hrest : ∀ j, j < k → isTerminalStatus (get (idx + 1 + j)) = false := by
      intro j hj
      have := h (j + 1) (Nat.succ_lt_succ hj)
      have harith : idx + (j + 1) = idx + 1 + j := by omega
      rw [harith] at this
      exact this
    have hk : k + 1 + fuel = (k + fuel) + 1 := by omega
    rw [hk, pollFromSync_nonterminal_step get taskId maxA interval idx (k + fuel) h0,
      ih (idx + 1) fuel hrest]
    have harith2 : idx + 1 + k = idx + (k + 1) := by omega
    simp [nonTerminalTrace, harith2]

/-- Claim C1: for every status payload whose status field is "completed" or
"SUCCESS", both `_poll_task_status` and `_poll_task_status_sync` return that
status payload on the very inspection that observed it: the trace consists of
the fetches and sleeps of the earlier non-terminal inspections followed by the
terminal fetch only — no further fetch and no further sleep. -/
theorem poll_success_returns_immediately (get : Nat → StatusPayload) (taskId : String)
    (maxA : Nat) (interval : ℚ) (i : Nat) (hi : i < maxA)
    (hpre : ∀ j, j < i → isTerminalStatus (get j) = false)
    (hs : isSuccessPayload (get i) = true) :
    pollTaskStatus get taskId maxA interval =
      (PollOutcome.completed (get i),
        nonTerminalTrace interval 0 i ++ [PollEvent.fetched i]) ∧
    pollTaskStatusSync get taskId maxA interval =
      (PollOutcome.completed (get i),
        nonTerminalTrace interval 0 i ++ [PollEvent.fetched i]) := by
  have hm : maxA = i + ((maxA - i - 1) + 1) := by omega
  have hpre0 : ∀ j, j < i → isTerminalStatus (get (0 + j)) = false := by
    intro j hj
    simpa using hpre j hj
  cases hst : (get i).status with
  | none => simp [isSuccessPayload, hst] at hs
  | some v =>
    have hv : isSuccessStatus v = true := by
      simpa [isSuccessPayload, hst] using hs
    constructor
    · show pollFromAsync get taskId maxA interval 0 maxA = _
      nth_rewrite 2 [hm]
      rw [pollFromAsync_skip get taskId maxA interval i 0 ((maxA - i - 1) + 1) hpre0]
      simp [pollFromAsync, hst, hv]
    · show pollFromSync get taskId maxA interval 0 maxA = _
      nth_rewrite 2 [hm]
      rw [pollFromSync_skip get taskId maxA interval i 0 ((maxA - i - 1) + 1) hpre0]
      simp [pollFromSync, hst, hv]

/-- Witness for C1 at a concrete fetcher that succeeds on attempt 1. -/
theorem poll_success_returns_immediately_witness :
    pollTaskStatus sampleFetchSuccess "t1" 3 2 =
      (PollOutcome.completed (sampleFetchSuccess 1),
        nonTerminalTrace 2 0 1 ++ [PollEvent.fetched 1]) ∧
    pollTaskStatusSync sampleFetchSuccess "t1" 3 2 =
      (PollOutcome.completed (sampleFetchSuccess 1),
        nonTerminalTrace 2 0 1 ++ [PollEvent.fetched 1]) :=
  poll_success_returns_immediately sampleFetchSuccess "t1" 3 2 1 (by decide)
    (by decide) (by decide)

/-- Claim C2: for every status payload whose status field is "failed",
"FAILED" or "error", both pollers raise immediately — the trace ends at the
terminal fetch with no retry, no further fetch and no sleep — and the
RuntimeError message is "Task failed: " followed by the payload's error field,
or "Unknown error" when the payload has no error field. -/
theorem poll_failure_raises_immediately (get : Nat → StatusPayload) (taskId : String)
    (maxA : Nat) (interval : ℚ) (i : Nat) (hi : i < maxA)
    (hpre : ∀ j, j < i → isTerminalStatus (get j) = false)
    (hf : isFailurePayload (get i) = true) :
    pollTaskStatus get taskId maxA interval =
      (PollOutcome.taskFailed ("Task failed: " ++ ((get i).error.getD "Unknown error")),
        nonTerminalTrace interval 0 i ++ [PollEvent.fetched i]) ∧
    pollTaskStatusSync get taskId maxA interval =
      (PollOutcome.taskFailed ("Task failed: " ++ ((get i).error.getD "Unknown error")),
        nonTerminalTrace interval 0 i ++ [PollEvent.fetched i]) := by
  have hm : maxA = i + ((maxA - i - 1) + 1) := by omega
  have hpre0 : ∀ j, j < i → isTerminalStatus (get (0 + j)) = false := by
    intro j hj
    simpa using hpre j hj
  cases hst : (get i).status with
  | none => simp [isFailurePayload, hst] at hf
  | some v =>
    have hv : isFailureStatus v = true := by
      simpa [isFailurePayload, hst] using hf
    have hnotsucc : isSuccessStatus v = false := by
      cases hsv : isSuccessStatus v with
      | false => rfl
      | true =>
        exfalso
        have h1 : v = "completed" ∨ v = "SUCCESS" := by
          simpa [isSuccessStatus] using hsv
        have h2 : (v = "failed" ∨ v = "FAILED") ∨ v = "error" := by
          simpa [isFailureStatus] using hv
        rcases h1 with h1 | h1 <;> rcases h2 with (h2 | h2) | h2 <;> simp [h1] at h2
    constructor
    · show pollFromAsync get taskId maxA interval 0 maxA = _
      nth_rewrite 2 [hm]
      rw [pollFromAsync_skip get taskId maxA interval i 0 ((maxA - i - 1) + 1) hpre0]
      simp [pollFromAsync, hst, hv, hnotsucc]
    · show pollFromSync get taskId maxA interval 0 maxA = _
      nth_rewrite 2 [hm]
      rw [pollFromSync_skip get taskId maxA interval i 0 ((maxA - i - 1) + 1) hpre0]
      simp [pollFromSync, hst, hv, hnotsucc]

/-- Witness for C2 at a concrete fetcher that fails on attempt 1 with error
field "boom". -/
theorem poll_failure_raises_immediately_witness :
    pollTaskStatus sampleFetchFailure "t2" 4 2 =
      (PollOutcome.taskFailed ("Task failed: " ++ ((sampleFetchFailure 1).error.getD "Unknown error")),
        nonTerminalTrace 2 0 1 ++ [PollEvent.fetched 1]) ∧
    pollTaskStatusSync sampleFetchFailure "t2" 4 2 =
      (PollOutcome.taskFailed ("Task failed: " ++ ((sampleFetchFailure 1).error.getD "Unknown error")),
        nonTerminalTrace 2 0 1 ++ [PollEvent.fetched 1]) :=
  poll_failure_raises_immediately sampleFetchFailure "t2" 4 2 1 (by decide)
    (by decide) (by decide)

/-- Claim C3: for a fetcher that never returns a terminal status, both pollers
perform exactly `max_poll_attempts` fetches, sleep `poll_interval` after every
non-terminal inspection including the final one (total slept time
`max_poll_attempts * poll_interval`), and then raise a timeout error — a
constructor distinct from the task-failure error — reporting the budget
`max_poll_attempts * poll_interval` seconds. -/
theorem poll_nonterminal_times_out (get : Nat → StatusPayload) (taskId : String)
    (maxA : Nat) (interval : ℚ)
    (hnt : ∀ j, j < maxA → isTerminalStatus (get j) = false) :
    pollTaskStatus get taskId maxA interval =
      (PollOutcome.timedOut taskId ((maxA : ℚ) * interval),
        nonTerminalTrace interval 0 maxA) ∧
    pollTaskStatusSync get taskId maxA interval =
      (PollOutcome.timedOut taskId ((maxA : ℚ) * interval),
        nonTerminalTrace interval 0 maxA) ∧
    fetchCount (nonTerminalTrace interval 0 maxA) = maxA ∧
    sleptTotal (nonTerminalTrace interval 0 maxA) = (maxA : ℚ) * interval ∧
    (∀ msg, PollOutcome.timedOut taskId ((maxA : ℚ) * interval) ≠
      PollOutcome.taskFailed msg) := by
  have hpre0 : ∀ j, j < maxA → isTerminalStatus (get (0 + j)) = false := by
    intro j hj
    simpa using hnt j hj
  refine ⟨?_, ?_, nonTerminalTrace_fetchCount interval maxA 0,
    nonTerminalTrace_sleptTotal interval maxA 0, by intro msg; simp⟩
  · have h := pollFromAsync_skip get taskId maxA interval maxA 0 0 hpre0
    show pollFromAsync get taskId maxA interval 0 maxA = _
    simpa [pollFromAsync] using h
  · have h := pollFromSync_skip get taskId maxA interval maxA 0 0 hpre0
    show pollFromSync get taskId maxA interval 0 maxA = _
    simpa [pollFromSync] using h

/-- Witness for C3 at a fetcher that always reports a pending status. -/
theorem poll_nonterminal_times_out_witness :
    pollTaskStatus sampleFetchPending "t3" 2 3 =
      (PollOutcome.timedOut "t3" ((2 : ℚ) * 3), nonTerminalTrace 3 0 2) ∧
    pollTaskStatusSync sampleFetchPending "t3" 2 3 =
      (PollOutcome.timedOut "t3" ((2 : ℚ) * 3), nonTerminalTrace 3 0 2) ∧
    fetchCount (nonTerminalTrace 3 0 2) = 2 ∧
    sleptTotal (nonTerminalTrace 3 0 2) = (2 : ℚ) * 3 ∧
    (∀ msg, PollOutcome.timedOut "t3" ((2 : ℚ) * 3) ≠ PollOutcome.taskFailed msg) :=
  poll_nonterminal_times_out sampleFetchPending "t3" 2 3 (by decide)

/-- Claim C10: a payload with no status attribute at all is treated as
non-terminal by both pollers — a fetcher that always returns such payloads is
fetched `max_poll_attempts` times, with a sleep after every fetch, and the run
ends in the timeout error, not in a returned status or a task failure. -/
theorem poll_missing_status_attribute_nonterminal (get : Nat → StatusPayload)
    (taskId : String) (maxA : Nat) (interval : ℚ)
    (hns : ∀ j, j < maxA → (get j).status = none) :
    pollTaskStatus get taskId maxA interval =
      (PollOutcome.timedOut taskId ((maxA : ℚ) * interval),
        nonTerminalTrace interval 0 maxA) ∧
    pollTaskStatusSync get taskId maxA interval =
      (PollOutcome.timedOut taskId ((maxA : ℚ) * interval),
        nonTerminalTrace interval 0 maxA) ∧
    fetchCount (nonTerminalTrace interval 0 maxA) = maxA := by
  have hpre0 : ∀ j, j < maxA → isTerminalStatus (get (0 + j)) = false := by
    intro j hj
    have := hns j hj
    simp [isTerminalStatus, this]
  refine ⟨?_, ?_, nonTerminalTrace_fetchCount interval maxA 0⟩
  · have h := pollFromAsync_skip get taskId maxA interval maxA 0 0 hpre0
    show pollFromAsync get taskId maxA interval 0 maxA = _
    simpa [pollFromAsync] using h
  · have h := pollFromSync_skip get taskId maxA interval maxA 0 0 hpre0
    show pollFromSync get taskId maxA interval 0 maxA = _
    simpa [pollFromSync] using h

/-- Witness for C10 at a fetcher whose payloads never carry a status. -/
theorem poll_missing_status_attribute_nonterminal_witness :
    pollTaskStatus sampleFetchNoStatus "t10" 2 1 =
      (PollOutcome.timedOut "t10" ((2 : ℚ) * 1), nonTerminalTrace 1 0 2) ∧
    pollTaskStatusSync sampleFetchNoStatus "t10" 2 1 =
      (PollOutcome.timedOut "t10" ((2 : ℚ) * 1), nonTerminalTrace 1 0 2) ∧
    fetchCount (nonTerminalTrace 1 0 2) = 2 :=
  poll_missing_status_attribute_nonterminal sampleFetchNoStatus "t10" 2 1 (by decide)

theorem pollFrom_async_eq_sync (get : Nat → StatusPayload) (taskId : String)
    (maxA : Nat) (interval : ℚ) :
    ∀ fuel idx, pollFromAsync get taskId maxA interval idx fuel =
      pollFromSync get taskId maxA interval idx fuel := by
  intro fuel
  induction fuel with
  | zero => intro idx; rfl
  | succ fuel ih =>
    intro idx
    cases hst : (get idx).status with
    | none => simp [pollFromAsync, pollFromSync, hst, ih]
    | some v => simp [pollFromAsync, pollFromSync, hst, ih]

/-- Claim C7: the blocking poller `_poll_task_status_sync` and the
suspend-capable poller `_poll_task_status` have identical semantics — for
every fetcher, task id, attempt budget and interval they produce the same
outcome and the same fetch/sleep event trace, at every loop state. -/
theorem poll_sync_async_equivalent (get : Nat → StatusPayload) (taskId : String)
    (maxA : Nat) (interval : ℚ) :
    pollTaskStatus get taskId maxA interval = pollTaskStatusSync get taskId maxA interval ∧
    ∀ idx fuel, pollFromAsync get taskId maxA interval idx fuel =
      pollFromSync get taskId maxA interval idx fuel := by
  refine ⟨pollFrom_async_eq_sync get taskId maxA interval maxA 0, ?_⟩
  intro idx fuel
  exact pollFrom_async_eq_sync get taskId maxA interval fuel idx

theorem bytesStartWith_exists_append (data magic : List Nat)
    (h : bytesStartWith data magic = true) : ∃ rest, data = magic ++ rest := by
  unfold bytesStartWith at h
  rw [beq_iff_eq] at h
  refine ⟨data.drop magic.length, ?_⟩
  conv_lhs => rw [← List.take_append_drop magic.length data]
  rw [h]

/-- Claim C4: format detection is content-first, header-second.  Leading bytes
b"RIFF" give "wav", b"fLaC" give "flac", b"OggS" give "ogg", and b"ID3" or the
MP3 frame-sync bytes 0xfffb/0xfffa give "mp3", regardless of the content-type;
when no magic sequence matches the result is the case-insensitive substring
classification of the content-type, and when that matches nothing either the
result is "pcm". -/
theorem detectAudioFormat_content_first (data : List Nat) (ct : String) :
    (bytesStartWith data [82, 73, 70, 70] = true → detectAudioFormat data ct = "wav") ∧
    (bytesStartWith data [102, 76, 97, 67] = true → detectAudioFormat data ct = "flac") ∧
    (bytesStartWith data [79, 103, 103, 83] = true → detectAudioFormat data ct = "ogg") ∧
    ((bytesStartWith data [73, 68, 51] = true ∨ bytesStartWith data [255, 251] = true ∨
        bytesStartWith data [255, 250] = true) → detectAudioFormat data ct = "mp3") ∧
    (hasAudioMagic data = false → detectAudioFormat data ct = contentTypeDetect ct) ∧
    (hasAudioMagic data = false → hasContentTypeHint ct = false →
      detectAudioFormat data ct = "pcm") := by
  refine ⟨?_, ?_, ?_, ?_, ?_, ?_⟩
  · intro h
    obtain ⟨rest, rfl⟩ := bytesStartWith_exists_append _ _ h
    rfl
  · intro h
    obtain ⟨rest, rfl⟩ := bytesStartWith_exists_append _ _ h
    rfl
  · intro h
    obtain ⟨rest, rfl⟩ := bytesStartWith_exists_append _ _ h
    rfl
  · rintro (h | h | h) <;>
      (obtain ⟨rest, rfl⟩ := bytesStartWith_exists_append _ _ h; rfl)
  · intro h
    simp only [hasAudioMagic, Bool.or_eq_false_iff] at h
    obtain ⟨⟨⟨⟨⟨h1, h2⟩, h3⟩, h4⟩, h5⟩, h6⟩ := h
    simp [detectAudioFormat, h1, h2, h3, h4, h5, h6]
  · intro h hct
    simp only [hasAudioMagic, Bool.or_eq_false_iff] at h
    obtain ⟨⟨⟨⟨⟨h1, h2⟩, h3⟩, h4⟩, h5⟩, h6⟩ := h
    simp only [hasContentTypeHint, Bool.or_eq_false_iff] at hct
    obtain ⟨⟨⟨⟨⟨c1, c2⟩, c3⟩, c4⟩, c5⟩, c6⟩ := hct
    simp [detectAudioFormat, contentTypeDetect, h1, h2, h3, h4, h5, h6,
      c1, c2, c3, c4, c5, c6]

/-- Witness for C4 over one concrete input per clause, with content-types
chosen to disagree with the magic bytes. -/
theorem detectAudioFormat_content_first_witness :
    detectAudioFormat [82, 73, 70, 70, 1] "audio/mpeg" = "wav" ∧
    detectAudioFormat [102, 76, 97, 67] "audio/mpeg" = "flac" ∧
    detectAudioFormat [79, 103, 103, 83] "" = "ogg" ∧
    detectAudioFormat [73, 68, 51, 9] "audio/wav" = "mp3" ∧
    detectAudioFormat [0, 1, 2] "Audio/FLAC" = contentTypeDetect "Audio/FLAC" ∧
    detectAudioFormat [0, 1, 2] "application/json" = "pcm" :=
  ⟨(detectAudioFormat_content_first [82, 73, 70, 70, 1] "audio/mpeg").1 (by decide),
   (detectAudioFormat_content_first [102, 76, 97, 67] "audio/mpeg").2.1 (by decide),
   (detectAudioFormat_content_first [79, 103, 103, 83] "").2.2.1 (by decide),
   (detectAudioFormat_content_first [73, 68, 51, 9] "audio/wav").2.2.2.1 (Or.inl (by decide)),
   (detectAudioFormat_content_first [0, 1, 2] "Audio/FLAC").2.2.2.2.1 (by decide),
   (detectAudioFormat_content_first [0, 1, 2] "application/json").2.2.2.2.2
     (by decide) (by decide)⟩

theorem addWavHeader_eq (pcm : List Nat) (h : pcm.length + 36 < 2 ^ 32) :
    addWavHeader pcm = some (wavHeader pcm.length ++ pcm) := by
  have h1 : 36 + pcm.length < 4294967296 := by omega
  have h2 : pcm.length < 4294967296 := by omega
  simp [addWavHeader, packU32, packU16, h1, h2, wavHeader, List.append_assoc]

set_option maxHeartbeats 2000000 in
/-- Claim C6: for a pcm byte sequence of length N (within the 32-bit range
`struct.pack` accepts), `_add_wav_header` returns exactly N+44 bytes: a
44-byte prefix starting with "RIFF" and declaring 1 channel (bytes 22-23),
sample rate 24000 (bytes 24-27, little-endian 0x5DC0) and 16 bits per sample
(bytes 34-35), followed by the original N bytes unchanged. -/
theorem addWavHeader_spec (pcm : List Nat) (h : pcm.length + 36 < 2 ^ 32) :
    ∃ out, addWavHeader pcm = some out ∧
      out.length = pcm.length + 44 ∧
      List.drop 44 out = pcm ∧
      List.take 4 out = [82, 73, 70, 70] ∧
      List.take 2 (List.drop 22 out) = [1, 0] ∧
      List.take 4 (List.drop 24 out) = [192, 93, 0, 0] ∧
      List.take 2 (List.drop 34 out) = [16, 0] := by
  refine ⟨wavHeader pcm.length ++ pcm, addWavHeader_eq pcm h, ?_, rfl, rfl, rfl, rfl, rfl⟩
  rw [List.length_append]
  have hlen : (wavHeader pcm.length).length = 44 := rfl
  rw [hlen]
  omega

/-- Witness for C6 at a concrete two-byte pcm payload. -/
theorem addWavHeader_spec_witness :
    ∃ out, addWavHeader [7, 8] = some out ∧
      out.length = (2 : Nat) + 44 ∧
      List.drop 44 out = [7, 8] ∧
      List.take 4 out = [82, 73, 70, 70] ∧
      List.take 2 (List.drop 22 out) = [1, 0] ∧
      List.take 4 (List.drop 24 out) = [192, 93, 0, 0] ∧
      List.take 2 (List.drop 34 out) = [16, 0] :=
  addWavHeader_spec [7, 8] (by decide)

/-- Counterexample to claim C5 as stated: the empty byte sequence classified
as "pcm" is NOT wrapped — `_format_output` guards the header synthesis with
the truthiness of `audio_data`, so empty pcm bytes reach the output (base64 of
zero bytes, or a .wav file of zero bytes) without the 44-byte header. -/
theorem formatOutput_empty_pcm_unwrapped :
    formatOutput [] "base64" "pcm" = some (OutputArtifact.b64 []) ∧
    formatOutput [] "file_path" "pcm" = some (OutputArtifact.filePath ".wav" []) ∧
    OutputArtifact.b64 [] ≠ OutputArtifact.b64 (wavHeader 0 ++ []) := by
  decide

/-- Claim C5 as amended: every NON-empty byte sequence classified as "pcm" is
wrapped with the synthesized WAV header before producing either output form,
so non-empty pcm bytes never reach the caller unwrapped; the empty pcm
sequence is the single exception, passed through unwrapped. -/
theorem formatOutput_nonempty_pcm_wrapped (data : List Nat) (fmt : String)
    (hne : data ≠ []) (hsz : data.length + 36 < 2 ^ 32) :
    formatOutput data fmt "pcm" =
      some (if fmt == "base64" then OutputArtifact.b64 (wavHeader data.length ++ data)
        else OutputArtifact.filePath ".wav" (wavHeader data.length ++ data)) := by
  have hw := addWavHeader_eq data hsz
  have hempty : data.isEmpty = false := by
    cases data with
    | nil => exact absurd rfl hne
    | cons a l => rfl
  by_cases hb : fmt == "base64"
  · simp [formatOutput, hw, hempty, hb, extMap, dictGet]
  · simp only [Bool.not_eq_true] at hb
    simp [formatOutput, hw, hempty, hb, extMap, dictGet]

/-- Witness for the amended C5 at a concrete non-empty pcm payload, in both
output forms. -/
theorem formatOutput_nonempty_pcm_wrapped_witness :
    (formatOutput [7] "file_path" "pcm" =
      some (if ("file_path" : String) == "base64"
        then OutputArtifact.b64 (wavHeader 1 ++ [7])
        else OutputArtifact.filePath ".wav" (wavHeader 1 ++ [7]))) ∧
    (formatOutput [7] "base64" "pcm" =
      some (if ("base64" : String) == "base64"
        then OutputArtifact.b64 (wavHeader 1 ++ [7])
        else OutputArtifact.filePath ".wav" (wavHeader 1 ++ [7]))) :=
  ⟨formatOutput_nonempty_pcm_wrapped [7] "file_path" (by decide) (by decide),
   formatOutput_nonempty_pcm_wrapped [7] "base64" (by decide) (by decide)⟩

/-- Counterexample to claim C8 as stated: a mapping that contains the key
output_url does NOT always use its value — because the selection is a Python
or-chain, a key present with an empty (falsy) value is skipped and a
later-priority key wins. -/
theorem fallbackUrl_skips_falsy_output_url :
    resolveFallbackUrl (some (StatusMessage.dict
      [("output_url", ""), ("audio_url", "http://a.example/x")])) =
      some "http://a.example/x" ∧
    some "http://a.example/x" ≠ some ("" : String) := by
  decide

/-- Claim C8 as amended: for a dict message the URL is the first candidate of
[output_url, audio_url, url], in that priority order, whose value is present
and truthy (non-empty) — so a non-empty output_url value wins even when
audio_url or url are also present, but a key with an empty value is skipped;
for a string message the string itself is the URL exactly when it starts with
"http"; when no URL is resolved the fallback returns the empty byte sequence
with format "pcm". -/
theorem fallbackUrl_priority (entries : List (String × String)) (s : String) :
    (∀ u, dictGet entries "output_url" = some u → u ≠ "" →
      resolveFallbackUrl (some (StatusMessage.dict entries)) = some u) ∧
    (entries ≠ [] →
      resolveFallbackUrl (some (StatusMessage.dict entries)) =
        findTruthyUrl [dictGet entries "output_url", dictGet entries "audio_url",
          dictGet entries "url"]) ∧
    (resolveFallbackUrl (some (StatusMessage.str s)) =
      if pyStartsWith s "http" then some s else none) ∧
    (∀ message fetchUrl, resolveFallbackUrl message = none →
      getAudioFromStatusFallback message fetchUrl = ([], "pcm")) := by
  refine ⟨?_, ?_, ?_, ?_⟩
  · intro u hu hne
    cases entries with
    | nil => simp [dictGet] at hu
    | cons p rest =>
      have hbeq : (u == "") = false := by
        simp [beq_iff_eq]
        exact hne
      simp [resolveFallbackUrl, messageTruthy, hu, findTruthyUrl, hbeq]
  · intro hne
    cases entries with
    | nil => exact absurd rfl hne
    | cons p rest => simp [resolveFallbackUrl, messageTruthy]
  · by_cases hs : s = ""
    · subst hs
      simp [resolveFallbackUrl, messageTruthy, pyStartsWith, charsStartWith]
    · have hbeq : (s == "") = false := by
        simp [beq_iff_eq]
        exact hs
      simp [resolveFallbackUrl, messageTruthy, hbeq]
  · intro message fetchUrl h
    simp [getAudioFromStatusFallback, h]

/-- Witness for the amended C8 at concrete messages: a dict whose non-empty
output_url wins over a later url key, a dict probed through the candidate
chain, an http string, a non-http string, and a message with no URL. -/
theorem fallbackUrl_priority_witness :
    resolveFallbackUrl (some (StatusMessage.dict
      [("output_url", "http://u.example/a"), ("url", "http://v.example/b")])) =
      some "http://u.example/a" ∧
    resolveFallbackUrl (some (StatusMessage.dict [("audio_url", "http://w.example/c")])) =
      findTruthyUrl [dictGet [("audio_url", "http://w.example/c")] "output_url",
        dictGet [("audio_url", "http://w.example/c")] "audio_url",
        dictGet [("audio_url", "http://w.example/c")] "url"] ∧
    resolveFallbackUrl (some (StatusMessage.str "http://x.example/d")) =
      (if pyStartsWith "http://x.example/d" "http" then some "http://x.example/d"
        else none) ∧
    getAudioFromStatusFallback (some StatusMessage.other) (fun _ => ([1], "audio/wav")) =
      ([], "pcm") :=
  ⟨(fallbackUrl_priority [("output_url", "http://u.example/a"), ("url", "http://v.example/b")]
      "").1 "http://u.example/a" (by decide) (by decide),
   (fallbackUrl_priority [("audio_url", "http://w.example/c")] "").2.1 (by decide),
   (fallbackUrl_priority [] "http://x.example/d").2.2.1,
   (fallbackUrl_priority [] "").2.2.2 (some StatusMessage.other)
     (fun _ => ([1], "audio/wav")) (by decide)⟩

/-- Claim C9: the translation tool's success-via-error-channel rule — in both
`_run` and `_arun`, an ApiError whose status_code is 200 and whose body is a
non-empty string is converted into a successful result equal to that body
(as a string); any other ApiError is re-raised unchanged. -/
theorem translation_success_via_error_channel (e : ApiError) :
    (∀ b, e.body = some b → b ≠ "" → e.statusCode = 200 →
      translationRunOutcome (Except.error e) = Except.ok b ∧
      translationArunOutcome (Except.error e) = Except.ok b) ∧
    (¬(e.statusCode = 200 ∧ bodyTruthy e.body = true) →
      translationRunOutcome (Except.error e) = Except.error e ∧
      translationArunOutcome (Except.error e) = Except.error e) := by
  constructor
  · intro b hb hne hsc
    have hbeq : (b == "") = false := by
      simp [beq_iff_eq]
      exact hne
    constructor <;>
      simp [translationRunOutcome, translationArunOutcome, hb, hsc, bodyTruthy,
        hbeq, bodyStr]
  · intro hn
    have hcond : (e.statusCode == 200 && bodyTruthy e.body) = false := by
      cases hca : (e.statusCode == 200 && bodyTruthy e.body) with
      | false => rfl
      | true =>
        exfalso
        apply hn
        simp only [Bool.and_eq_true, beq_iff_eq] at hca
        exact hca
    constructor <;> simp [translationRunOutcome, translationArunOutcome, hcond]

/-- Witness for C9: a 200 ApiError with body "hola" becomes a success; a 404
ApiError is re-raised. -/
theorem translation_success_via_error_channel_witness :
    (translationRunOutcome (Except.error (ApiError.mk 200 (some "hola"))) =
      Except.ok "hola" ∧
     translationArunOutcome (Except.error (ApiError.mk 200 (some "hola"))) =
      Except.ok "hola") ∧
    (translationRunOutcome (Except.error (ApiError.mk 404 (some "oops"))) =
      Except.error (ApiError.mk 404 (some "oops")) ∧
     translationArunOutcome (Except.error (ApiError.mk 404 (some "oops"))) =
      Except.error (ApiError.mk 404 (some "oops"))) :=
  ⟨(translation_success_via_error_channel (ApiError.mk 200 (some "hola"))).1
      "hola" rfl (by decide) rfl,
   (translation_success_via_error_channel (ApiError.mk 404 (some "oops"))).2
      (by decide)⟩

